import Mathlib

/-!
Verification of the tube cross-section property evaluator
(`openaerostruct_v2/structures/components/tube_properties_comp.py`,
class `TubePropertiesComp`).

The component is a pure elementwise transform: per beam element it reads
an outer radius and a wall thickness, forms the inner radius
`r1 = radius - thickness` and outer radius `r2 = radius`, and produces
the cross-sectional area `A`, the bending moments of inertia `Iy`, `Iz`
and the torsional moment `J` of a hollow circular tube, together with
the analytic partial derivatives of each output with respect to each
input.  The numpy constant `np.pi` is modelled as an explicit parameter
`pi` of the field, so that the development stays executable; claims that
depend on the sign of `np.pi` carry the hypothesis `0 < pi`.
-/

namespace TubeProps

/-- The four per-element outputs produced by `compute` (scalar form). -/
structure TubeOutputs (R : Type) where
  A : R
  Iy : R
  Iz : R
  J : R
  deriving Repr, DecidableEq

/-- The eight per-element diagonal sensitivities produced by
`compute_partials` (scalar form). -/
structure TubePartials (R : Type) where
  dA_dradius : R
  dA_dthickness : R
  dIy_dradius : R
  dIy_dthickness : R
  dIz_dradius : R
  dIz_dthickness : R
  dJ_dradius : R
  dJ_dthickness : R
  deriving Repr, DecidableEq

/-- Scalar body of `TubePropertiesComp.compute` (source lines 48-54):
`r1 = radius - thickness`, `r2 = radius`,
`A = pi*(r2**2 - r1**2)`, `Iy = Iz = pi*(r2**4 - r1**4)/4.`,
`J = pi*(r2**4 - r1**4)/2.`. -/
def compute1 {R : Type} [Field R] (pi radius thickness : R) : TubeOutputs R :=
  let r1 := radius - thickness
  let r2 := radius
  { A := pi * (r2 ^ 2 - r1 ^ 2)
    Iy := pi * (r2 ^ 4 - r1 ^ 4) / 4
    Iz := pi * (r2 ^ 4 - r1 ^ 4) / 4
    J := pi * (r2 ^ 4 - r1 ^ 4) / 2 }

/-- Scalar body of `TubePropertiesComp.compute_partials` (source lines
59-83), with the four chain-rule factors `dr1_dr = 1`, `dr2_dr = 1`,
`dr1_dt = -1`, `dr2_dt = 0` kept literally as in the source. -/
def computePartials1 {R : Type} [Field R] (pi radius thickness : R) :
    TubePartials R :=
  let dr1_dr : R := 1
  let dr2_dr : R := 1
  let dr1_dt : R := -1
  let dr2_dt : R := 0
  let r1 := radius - thickness
  let r2 := radius
  { dA_dradius := 2 * pi * (r2 * dr2_dr - r1 * dr1_dr)
    dA_dthickness := 2 * pi * (r2 * dr2_dt - r1 * dr1_dt)
    dIy_dradius := pi * (r2 ^ 3 * dr2_dr - r1 ^ 3 * dr1_dr)
    dIy_dthickness := pi * (r2 ^ 3 * dr2_dt - r1 ^ 3 * dr1_dt)
    dIz_dradius := pi * (r2 ^ 3 * dr2_dr - r1 ^ 3 * dr1_dr)
    dIz_dthickness := pi * (r2 ^ 3 * dr2_dt - r1 ^ 3 * dr1_dt)
    dJ_dradius := 2 * pi * (r2 ^ 3 * dr2_dr - r1 ^ 3 * dr1_dr)
    dJ_dthickness := 2 * pi * (r2 ^ 3 * dr2_dt - r1 ^ 3 * dr1_dt) }

/-- The two runtime input vectors of one lifting surface:
`{name}_tube_radius` and `{name}_tube_thickness`. -/
structure TubeInputs (R : Type) where
  radius : List R
  thickness : List R
  deriving Repr, DecidableEq

/-- The four runtime output vectors of one lifting surface:
`{name}_element_A`, `_Iy`, `_Iz`, `_J`. -/
structure TubeOutputsVec (R : Type) where
  A : List R
  Iy : List R
  Iz : List R
  J : List R
  deriving Repr, DecidableEq

/-- The eight diagonal sensitivity vectors of one lifting surface. -/
structure TubePartialsVec (R : Type) where
  dA_dradius : List R
  dA_dthickness : List R
  dIy_dradius : List R
  dIy_dthickness : List R
  dIz_dradius : List R
  dIz_dthickness : List R
  dJ_dradius : List R
  dJ_dthickness : List R
  deriving Repr, DecidableEq

/-- Vectorized `compute` for one lifting surface: the numpy expressions
of source lines 48-54 act elementwise on the radius and thickness
arrays, which the framework supplies with equal length. -/
def compute {R : Type} [Field R] (pi : R) (inputs : TubeInputs R) :
    TubeOutputsVec R :=
  { A := List.zipWith (fun r t => (compute1 pi r t).A) inputs.radius inputs.thickness
    Iy := List.zipWith (fun r t => (compute1 pi r t).Iy) inputs.radius inputs.thickness
    Iz := List.zipWith (fun r t => (compute1 pi r t).Iz) inputs.radius inputs.thickness
    J := List.zipWith (fun r t => (compute1 pi r t).J) inputs.radius inputs.thickness }

/-- Vectorized `compute_partials` for one lifting surface: the numpy
expressions of source lines 76-83 act elementwise. -/
def computePartials {R : Type} [Field R] (pi : R) (inputs : TubeInputs R) :
    TubePartialsVec R :=
  { dA_dradius := List.zipWith (fun r t => (computePartials1 pi r t).dA_dradius)
      inputs.radius inputs.thickness
    dA_dthickness := List.zipWith (fun r t => (computePartials1 pi r t).dA_dthickness)
      inputs.radius inputs.thickness
    dIy_dradius := List.zipWith (fun r t => (computePartials1 pi r t).dIy_dradius)
      inputs.radius inputs.thickness
    dIy_dthickness := List.zipWith (fun r t => (computePartials1 pi r t).dIy_dthickness)
      inputs.radius inputs.thickness
    dIz_dradius := List.zipWith (fun r t => (computePartials1 pi r t).dIz_dradius)
      inputs.radius inputs.thickness
    dIz_dthickness := List.zipWith (fun r t => (computePartials1 pi r t).dIz_dthickness)
      inputs.radius inputs.thickness
    dJ_dradius := List.zipWith (fun r t => (computePartials1 pi r t).dJ_dradius)
      inputs.radius inputs.thickness
    dJ_dthickness := List.zipWith (fun r t => (computePartials1 pi r t).dJ_dthickness)
      inputs.radius inputs.thickness }

/-- One declared input or output slot: its framework name and its
declared vector length. -/
structure SlotDecl where
  name : String
  shape : Nat
  deriving Repr, DecidableEq

/-- One `declare_partials(out_name, in_name, rows=arange, cols=arange)`
registration. -/
structure PartialsDecl where
  out_name : String
  in_name : String
  rows : List Nat
  cols : List Nat
  deriving Repr, DecidableEq

/-- Everything `setup` registers for one lifting surface. -/
structure SurfaceSetup where
  inputs : List SlotDecl
  outputs : List SlotDecl
  partials : List PartialsDecl
  deriving Repr, DecidableEq

/-- Body of the per-surface loop of `TubePropertiesComp.setup` (source
lines 15-34): `num_points_z = 2 * num_points_z_half - 1`; two inputs
named `{name}_tube_{radius,thickness}` and four outputs named
`{name}_element_{A,Iy,Iz,J}`, all of shape `num_points_z - 1`; and a
`declare_partials` with `rows = cols = arange(num_points_z - 1)` for
each of the 4 x 2 (output, input) pairs. -/
def setupSurface (name : String) (num_points_z_half : Nat) : SurfaceSetup :=
  let num_points_z := 2 * num_points_z_half - 1
  let arange := List.range (num_points_z - 1)
  { inputs := ["radius", "thickness"].map
      (fun s => ⟨name ++ "_tube_" ++ s, num_points_z - 1⟩)
    outputs := ["A", "Iy", "Iz", "J"].map
      (fun s => ⟨name ++ "_element_" ++ s, num_points_z - 1⟩)
    partials := (["A", "Iy", "Iz", "J"].map
      (fun o => ["radius", "thickness"].map
        (fun i => (⟨name ++ "_element_" ++ o, name ++ "_tube_" ++ i,
                    arange, arange⟩ : PartialsDecl)))).flatten }

/-- `TubePropertiesComp.setup`: iterate `setupSurface` over the ordered
list of (surface name, `num_points_z_half`) pairs. -/
def setup (lifting_surfaces : List (String × Nat)) : List SurfaceSetup :=
  lifting_surfaces.map (fun p => setupSurface p.1 p.2)

/-- Modelled from the spec: the shape enforcement is performed by the
surrounding OpenMDAO framework layer, which is not under `src/`; the
component's own `compute` body contains no length check.  Per the spec
(error taxonomy, ShapeMismatchError), a runtime input vector whose
length differs from the `n_elements` fixed at `setup` is rejected
before any output computation proceeds. -/
def computeChecked {R : Type} [Field R] (pi : R) (n_elements : Nat)
    (inputs : TubeInputs R) : Except String (TubeOutputsVec R) :=
  if inputs.radius.length = n_elements ∧ inputs.thickness.length = n_elements then
    Except.ok (compute pi inputs)
  else
    Except.error "ShapeMismatchError"

/-- Helper: an in-bounds `getD` of a `zipWith` is the function applied
to the in-bounds `getD`s of the two argument lists. -/
theorem getD_zipWith {α β γ : Type} (f : α → β → γ) (as : List α)
    (bs : List β) (i : Nat) (ha : i < as.length) (hb : i < bs.length)
    (d : γ) (da : α) (db : β) :
    (List.zipWith f as bs).getD i d = f (as.getD i da) (bs.getD i db) := by
  induction as generalizing bs i with
  | nil => simp at ha
  | cons a as ih =>
    cases bs with
    | nil => simp at hb
    | cons b bs =>
      cases i with
      | zero => simp [List.getD]
      | succ n =>
        simp only [List.zipWith_cons_cons, List.length_cons] at *
        exact ih bs n (Nat.lt_of_succ_lt_succ ha) (Nat.lt_of_succ_lt_succ hb)

/-- Helper: two `zipWith`s of pointwise-equal functions agree. -/
theorem zipWith_ext {α β γ : Type} (f g : α → β → γ)
    (h : ∀ a b, f a b = g a b) (as : List α) (bs : List β) :
    List.zipWith f as bs = List.zipWith g as bs := by
  induction as generalizing bs with
  | nil => simp
  | cons a as ih =>
    cases bs with
    | nil => simp
    | cons b bs => simp [h, ih]

/-- Helper: the four output vectors, read at an in-bounds index `i` with
default `0`, are the scalar outputs of that element. -/
theorem compute_getD {R : Type} [Field R] (pi : R) (inputs : TubeInputs R)
    (i : Nat) (hr : i < inputs.radius.length)
    (ht : i < inputs.thickness.length) :
    (compute pi inputs).A.getD i 0
        = (compute1 pi (inputs.radius.getD i 0) (inputs.thickness.getD i 0)).A ∧
      (compute pi inputs).Iy.getD i 0
        = (compute1 pi (inputs.radius.getD i 0) (inputs.thickness.getD i 0)).Iy ∧
      (compute pi inputs).Iz.getD i 0
        = (compute1 pi (inputs.radius.getD i 0) (inputs.thickness.getD i 0)).Iz ∧
      (compute pi inputs).J.getD i 0
        = (compute1 pi (inputs.radius.getD i 0) (inputs.thickness.getD i 0)).J := by
  refine ⟨?_, ?_, ?_, ?_⟩ <;>
    simp only [compute] <;>
    exact getD_zipWith _ _ _ i hr ht 0 0 0

/-- Helper: the eight sensitivity vectors, read at an in-bounds index
`i` with default `0`, are the scalar sensitivities of that element. -/
theorem computePartials_getD {R : Type} [Field R] (pi : R)
    (inputs : TubeInputs R) (i : Nat) (hr : i < inputs.radius.length)
    (ht : i < inputs.thickness.length) :
    (computePartials pi inputs).dA_dradius.getD i 0
        = (computePartials1 pi (inputs.radius.getD i 0) (inputs.thickness.getD i 0)).dA_dradius ∧
      (computePartials pi inputs).dA_dthickness.getD i 0
        = (computePartials1 pi (inputs.radius.getD i 0) (inputs.thickness.getD i 0)).dA_dthickness ∧
      (computePartials pi inputs).dIy_dradius.getD i 0
        = (computePartials1 pi (inputs.radius.getD i 0) (inputs.thickness.getD i 0)).dIy_dradius ∧
      (computePartials pi inputs).dIy_dthickness.getD i 0
        = (computePartials1 pi (inputs.radius.getD i 0) (inputs.thickness.getD i 0)).dIy_dthickness ∧
      (computePartials pi inputs).dIz_dradius.getD i 0
        = (computePartials1 pi (inputs.radius.getD i 0) (inputs.thickness.getD i 0)).dIz_dradius ∧
      (computePartials pi inputs).dIz_dthickness.getD i 0
        = (computePartials1 pi (inputs.radius.getD i 0) (inputs.thickness.getD i 0)).dIz_dthickness ∧
      (computePartials pi inputs).dJ_dradius.getD i 0
        = (computePartials1 pi (inputs.radius.getD i 0) (inputs.thickness.getD i 0)).dJ_dradius ∧
      (computePartials pi inputs).dJ_dthickness.getD i 0
        = (computePartials1 pi (inputs.radius.getD i 0) (inputs.thickness.getD i 0)).dJ_dthickness := by
  refine ⟨?_, ?_, ?_, ?_, ?_, ?_, ?_, ?_⟩ <;>
    simp only [computePartials] <;>
    exact getD_zipWith _ _ _ i hr ht 0 0 0

/-- C1: at every in-bounds index `i`, `compute` sets the outputs
elementwise from `r1 = radius[i] - thickness[i]`, `r2 = radius[i]` as
`A[i] = pi*(r2^2 - r1^2)`, `Iy[i] = Iz[i] = pi*(r2^4 - r1^4)/4`, and
`J[i] = pi*(r2^4 - r1^4)/2`. -/
theorem compute_elementwise_formulas {R : Type} [Field R] (pi : R)
    (inputs : TubeInputs R) (i : Nat) (hr : i < inputs.radius.length)
    (ht : i < inputs.thickness.length) :
    (compute pi inputs).A.getD i 0
        = pi * ((inputs.radius.getD i 0) ^ 2
            - (inputs.radius.getD i 0 - inputs.thickness.getD i 0) ^ 2) ∧
      (compute pi inputs).Iy.getD i 0
        = pi * ((inputs.radius.getD i 0) ^ 4
            - (inputs.radius.getD i 0 - inputs.thickness.getD i 0) ^ 4) / 4 ∧
      (compute pi inputs).Iz.getD i 0
        = pi * ((inputs.radius.getD i 0) ^ 4
            - (inputs.radius.getD i 0 - inputs.thickness.getD i 0) ^ 4) / 4 ∧
      (compute pi inputs).J.getD i 0
        = pi * ((inputs.radius.getD i 0) ^ 4
            - (inputs.radius.getD i 0 - inputs.thickness.getD i 0) ^ 4) / 2 := by
  obtain ⟨hA, hIy, hIz, hJ⟩ := compute_getD pi inputs i hr ht
  exact ⟨by rw [hA]; simp [compute1], by rw [hIy]; simp [compute1],
    by rw [hIz]; simp [compute1], by rw [hJ]; simp [compute1]⟩

/-- Witness for C1 at `pi = 3`, `radius = [1]`, `thickness = [1/2]`,
`i = 0`. -/
theorem compute_elementwise_formulas_witness :
    ((compute (3 : ℚ) ⟨[1], [1/2]⟩).A.getD 0 0
        = 3 * ((([(1 : ℚ)].getD 0 0)) ^ 2
            - ([(1 : ℚ)].getD 0 0 - [(1/2 : ℚ)].getD 0 0) ^ 2) ∧
      (compute (3 : ℚ) ⟨[1], [1/2]⟩).Iy.getD 0 0
        = 3 * ((([(1 : ℚ)].getD 0 0)) ^ 4
            - ([(1 : ℚ)].getD 0 0 - [(1/2 : ℚ)].getD 0 0) ^ 4) / 4 ∧
      (compute (3 : ℚ) ⟨[1], [1/2]⟩).Iz.getD 0 0
        = 3 * ((([(1 : ℚ)].getD 0 0)) ^ 4
            - ([(1 : ℚ)].getD 0 0 - [(1/2 : ℚ)].getD 0 0) ^ 4) / 4 ∧
      (compute (3 : ℚ) ⟨[1], [1/2]⟩).J.getD 0 0
        = 3 * ((([(1 : ℚ)].getD 0 0)) ^ 4
            - ([(1 : ℚ)].getD 0 0 - [(1/2 : ℚ)].getD 0 0) ^ 4) / 2) :=
  compute_elementwise_formulas (3 : ℚ) ⟨[1], [1/2]⟩ 0
    (by simp) (by simp)

/-- C2: at every in-bounds index `i`, `compute_partials` fills the eight
diagonal (output, input) pairs with the closed forms
`dA/dr = 2*pi*(r2 - r1)`, `dA/dt = 2*pi*r1`,
`dIy/dr = dIz/dr = pi*(r2^3 - r1^3)`, `dIy/dt = dIz/dt = pi*r1^3`,
`dJ/dr = 2*pi*(r2^3 - r1^3)`, `dJ/dt = 2*pi*r1^3`, where
`r1 = radius[i] - thickness[i]` and `r2 = radius[i]`. -/
theorem computePartials_closed_forms {R : Type} [Field R] (pi : R)
    (inputs : TubeInputs R) (i : Nat) (hr : i < inputs.radius.length)
    (ht : i < inputs.thickness.length) :
    (computePartials pi inputs).dA_dradius.getD i 0
        = 2 * pi * (inputs.radius.getD i 0
            - (inputs.radius.getD i 0 - inputs.thickness.getD i 0)) ∧
      (computePartials pi inputs).dA_dthickness.getD i 0
        = 2 * pi * (inputs.radius.getD i 0 - inputs.thickness.getD i 0) ∧
      (computePartials pi inputs).dIy_dradius.getD i 0
        = pi * ((inputs.radius.getD i 0) ^ 3
            - (inputs.radius.getD i 0 - inputs.thickness.getD i 0) ^ 3) ∧
      (computePartials pi inputs).dIy_dthickness.getD i 0
        = pi * (inputs.radius.getD i 0 - inputs.thickness.getD i 0) ^ 3 ∧
      (computePartials pi inputs).dIz_dradius.getD i 0
        = pi * ((inputs.radius.getD i 0) ^ 3
            - (inputs.radius.getD i 0 - inputs.thickness.getD i 0) ^ 3) ∧
      (computePartials pi inputs).dIz_dthickness.getD i 0
        = pi * (inputs.radius.getD i 0 - inputs.thickness.getD i 0) ^ 3 ∧
      (computePartials pi inputs).dJ_dradius.getD i 0
        = 2 * pi * ((inputs.radius.getD i 0) ^ 3
            - (inputs.radius.getD i 0 - inputs.thickness.getD i 0) ^ 3) ∧
      (computePartials pi inputs).dJ_dthickness.getD i 0
        = 2 * pi * (inputs.radius.getD i 0 - inputs.thickness.getD i 0) ^ 3 := by
  obtain ⟨h1, h2, h3, h4, h5, h6, h7, h8⟩ :=
    computePartials_getD pi inputs i hr ht
  refine ⟨?_, ?_, ?_, ?_, ?_, ?_, ?_, ?_⟩
  · rw [h1]; simp [computePartials1]
  · rw [h2]; simp [computePartials1]
  · rw [h3]; simp [computePartials1]
  · rw [h4]; simp [computePartials1]
  · rw [h5]; simp [computePartials1]
  · rw [h6]; simp [computePartials1]
  · rw [h7]; simp [computePartials1]
  · rw [h8]; simp [computePartials1]

/-- Witness for C2 at `pi = 3`, `radius = [1]`, `thickness = [1/2]`,
`i = 0`. -/
theorem computePartials_closed_forms_witness :
    ((computePartials (3 : ℚ) ⟨[1], [1/2]⟩).dA_dradius.getD 0 0
        = 2 * 3 * ([(1 : ℚ)].getD 0 0
            - ([(1 : ℚ)].getD 0 0 - [(1/2 : ℚ)].getD 0 0)) ∧
      (computePartials (3 : ℚ) ⟨[1], [1/2]⟩).dA_dthickness.getD 0 0
        = 2 * 3 * ([(1 : ℚ)].getD 0 0 - [(1/2 : ℚ)].getD 0 0) ∧
      (computePartials (3 : ℚ) ⟨[1], [1/2]⟩).dIy_dradius.getD 0 0
        = 3 * (([(1 : ℚ)].getD 0 0) ^ 3
            - ([(1 : ℚ)].getD 0 0 - [(1/2 : ℚ)].getD 0 0) ^ 3) ∧
      (computePartials (3 : ℚ) ⟨[1], [1/2]⟩).dIy_dthickness.getD 0 0
        = 3 * ([(1 : ℚ)].getD 0 0 - [(1/2 : ℚ)].getD 0 0) ^ 3 ∧
      (computePartials (3 : ℚ) ⟨[1], [1/2]⟩).dIz_dradius.getD 0 0
        = 3 * (([(1 : ℚ)].getD 0 0) ^ 3
            - ([(1 : ℚ)].getD 0 0 - [(1/2 : ℚ)].getD 0 0) ^ 3) ∧
      (computePartials (3 : ℚ) ⟨[1], [1/2]⟩).dIz_dthickness.getD 0 0
        = 3 * ([(1 : ℚ)].getD 0 0 - [(1/2 : ℚ)].getD 0 0) ^ 3 ∧
      (computePartials (3 : ℚ) ⟨[1], [1/2]⟩).dJ_dradius.getD 0 0
        = 2 * 3 * (([(1 : ℚ)].getD 0 0) ^ 3
            - ([(1 : ℚ)].getD 0 0 - [(1/2 : ℚ)].getD 0 0) ^ 3) ∧
      (computePartials (3 : ℚ) ⟨[1], [1/2]⟩).dJ_dthickness.getD 0 0
        = 2 * 3 * ([(1 : ℚ)].getD 0 0 - [(1/2 : ℚ)].getD 0 0) ^ 3) :=
  computePartials_closed_forms (3 : ℚ) ⟨[1], [1/2]⟩ 0 (by simp) (by simp)

/-- C5: `Iy` and `Iz` are computed by the same expression
(source lines 52-53), hence are equal with no precondition at all. -/
theorem compute_Iy_eq_Iz {R : Type} [Field R] (pi : R)
    (inputs : TubeInputs R) :
    (compute pi inputs).Iy = (compute pi inputs).Iz := by
  simp only [compute]
  exact zipWith_ext _ _ (by intro r t; simp [compute1]) _ _

/-- Helper: scalar positivity of the four outputs in the physical
regime `0 < thickness < radius`, for `0 < pi`. -/
theorem compute1_pos {R : Type} [LinearOrderedField R] (pi r t : R)
    (hpi : 0 < pi) (h1 : t < r) (h2 : 0 < t) :
    0 < (compute1 pi r t).A ∧ 0 < (compute1 pi r t).Iy ∧
      0 < (compute1 pi r t).Iz ∧ 0 < (compute1 pi r t).J := by
  have hrt : 0 ≤ r - t := by linarith
  have hlt : r - t < r := by linarith
  have h4 : (r - t) ^ 4 < r ^ 4 :=
    pow_lt_pow_left₀ hlt hrt (by norm_num)
  have h2lt : (r - t) ^ 2 < r ^ 2 :=
    pow_lt_pow_left₀ hlt hrt (by norm_num)
  refine ⟨?_, ?_, ?_, ?_⟩ <;> simp only [compute1]
  · exact mul_pos hpi (by linarith)
  · exact div_pos (mul_pos hpi (by linarith)) (by norm_num)
  · exact div_pos (mul_pos hpi (by linarith)) (by norm_num)
  · exact div_pos (mul_pos hpi (by linarith)) (by norm_num)

/-- C6: at every in-bounds index `i` with
`radius[i] > thickness[i] > 0` and positive `pi`, the four outputs of
`compute` are strictly positive at `i`. -/
theorem compute_pos {R : Type} [LinearOrderedField R] (pi : R)
    (inputs : TubeInputs R) (i : Nat) (hpi : 0 < pi)
    (hr : i < inputs.radius.length) (ht : i < inputs.thickness.length)
    (h1 : inputs.thickness.getD i 0 < inputs.radius.getD i 0)
    (h2 : 0 < inputs.thickness.getD i 0) :
    0 < (compute pi inputs).A.getD i 0 ∧
      0 < (compute pi inputs).Iy.getD i 0 ∧
      0 < (compute pi inputs).Iz.getD i 0 ∧
      0 < (compute pi inputs).J.getD i 0 := by
  obtain ⟨hA, hIy, hIz, hJ⟩ := compute_getD pi inputs i hr ht
  obtain ⟨p1, p2, p3, p4⟩ :=
    compute1_pos pi (inputs.radius.getD i 0) (inputs.thickness.getD i 0)
      hpi h1 h2
  exact ⟨hA ▸ p1, hIy ▸ p2, hIz ▸ p3, hJ ▸ p4⟩

/-- Witness for C6 at `pi = 3`, `radius = [1]`, `thickness = [1/2]`,
`i = 0`. -/
theorem compute_pos_witness :
    0 < (compute (3 : ℚ) ⟨[1], [1/2]⟩).A.getD 0 0 ∧
      0 < (compute (3 : ℚ) ⟨[1], [1/2]⟩).Iy.getD 0 0 ∧
      0 < (compute (3 : ℚ) ⟨[1], [1/2]⟩).Iz.getD 0 0 ∧
      0 < (compute (3 : ℚ) ⟨[1], [1/2]⟩).J.getD 0 0 :=
  compute_pos (3 : ℚ) ⟨[1], [1/2]⟩ 0 (by norm_num) (by simp) (by simp)
    (by norm_num) (by norm_num)

/-- C7: scaling both input vectors by `k` scales `A` by `k^2` and
`Iy`, `Iz`, `J` by `k^4`. -/
theorem compute_scale_covariance {R : Type} [Field R] (pi k : R)
    (inputs : TubeInputs R) :
    (compute pi ⟨inputs.radius.map (fun x => k * x),
        inputs.thickness.map (fun x => k * x)⟩).A
        = (compute pi inputs).A.map (fun x => k ^ 2 * x) ∧
      (compute pi ⟨inputs.radius.map (fun x => k * x),
        inputs.thickness.map (fun x => k * x)⟩).Iy
        = (compute pi inputs).Iy.map (fun x => k ^ 4 * x) ∧
      (compute pi ⟨inputs.radius.map (fun x => k * x),
        inputs.thickness.map (fun x => k * x)⟩).Iz
        = (compute pi inputs).Iz.map (fun x => k ^ 4 * x) ∧
      (compute pi ⟨inputs.radius.map (fun x => k * x),
        inputs.thickness.map (fun x => k * x)⟩).J
        = (compute pi inputs).J.map (fun x => k ^ 4 * x) := by
  refine ⟨?_, ?_, ?_, ?_⟩ <;>
    simp only [compute, List.zipWith_map, List.map_zipWith] <;>
    refine zipWith_ext _ _ (fun r t => ?_) _ _ <;>
    simp only [compute1] <;> ring

/-- C4: `setup` declares, for every listed surface, exactly the two
input slots `{name}_tube_radius`, `{name}_tube_thickness` and the four
output slots `{name}_element_{A,Iy,Iz,J}`, all of length
`n_elements = 2 * num_points_z_half - 2`, and registers
`rows = cols = [0, ..., n_elements - 1]` (a diagonal pattern) for all
eight (output, input) derivative pairs. -/
theorem setup_declarations (lifting_surfaces : List (String × Nat)) :
    setup lifting_surfaces = lifting_surfaces.map (fun p =>
      { inputs := [⟨p.1 ++ "_tube_radius", 2 * p.2 - 2⟩,
          ⟨p.1 ++ "_tube_thickness", 2 * p.2 - 2⟩]
        outputs := [⟨p.1 ++ "_element_A", 2 * p.2 - 2⟩,
          ⟨p.1 ++ "_element_Iy", 2 * p.2 - 2⟩,
          ⟨p.1 ++ "_element_Iz", 2 * p.2 - 2⟩,
          ⟨p.1 ++ "_element_J", 2 * p.2 - 2⟩]
        partials :=
          [⟨p.1 ++ "_element_A", p.1 ++ "_tube_radius",
              List.range (2 * p.2 - 2), List.range (2 * p.2 - 2)⟩,
            ⟨p.1 ++ "_element_A", p.1 ++ "_tube_thickness",
              List.range (2 * p.2 - 2), List.range (2 * p.2 - 2)⟩,
            ⟨p.1 ++ "_element_Iy", p.1 ++ "_tube_radius",
              List.range (2 * p.2 - 2), List.range (2 * p.2 - 2)⟩,
            ⟨p.1 ++ "_element_Iy", p.1 ++ "_tube_thickness",
              List.range (2 * p.2 - 2), List.range (2 * p.2 - 2)⟩,
            ⟨p.1 ++ "_element_Iz", p.1 ++ "_tube_radius",
              List.range (2 * p.2 - 2), List.range (2 * p.2 - 2)⟩,
            ⟨p.1 ++ "_element_Iz", p.1 ++ "_tube_thickness",
              List.range (2 * p.2 - 2), List.range (2 * p.2 - 2)⟩,
            ⟨p.1 ++ "_element_J", p.1 ++ "_tube_radius",
              List.range (2 * p.2 - 2), List.range (2 * p.2 - 2)⟩,
            ⟨p.1 ++ "_element_J", p.1 ++ "_tube_thickness",
              List.range (2 * p.2 - 2), List.range (2 * p.2 - 2)⟩] }) := by
  simp only [setup, setupSurface, List.map_cons, List.map_nil,
    List.flatten_cons, List.flatten_nil, List.cons_append, List.nil_append,
    Nat.sub_sub, String.append_assoc]
  rfl

/-- C9 (spec-modelled shape check): a runtime input vector whose length
differs from the `n_elements` fixed at setup makes the checked
evaluation report `ShapeMismatchError` instead of computing outputs. -/
theorem computeChecked_mismatch {R : Type} [Field R] (pi : R)
    (n_elements : Nat) (inputs : TubeInputs R)
    (h : inputs.radius.length ≠ n_elements ∨
      inputs.thickness.length ≠ n_elements) :
    computeChecked pi n_elements inputs
      = Except.error "ShapeMismatchError" := by
  have hc : ¬(inputs.radius.length = n_elements ∧
      inputs.thickness.length = n_elements) := by tauto
  simp [computeChecked, hc]

/-- Witness for C9: two radius entries against `n_elements = 1`. -/
theorem computeChecked_mismatch_witness :
    computeChecked (3 : ℚ) 1 ⟨[1, 2], [1/2]⟩
      = Except.error "ShapeMismatchError" :=
  computeChecked_mismatch (3 : ℚ) 1 ⟨[1, 2], [1/2]⟩ (Or.inl (by simp))

/-- C8: for inputs with `thickness[i] > radius[i]` (negative inner
radius), `compute` and `compute_partials` still return normally and
produce exactly the same formula values as in the valid regime; the
embedding is a total function and no case of it is excluded. -/
theorem compute_total_negative_r1 {R : Type} [LinearOrderedField R]
    (pi : R) (inputs : TubeInputs R) (i : Nat)
    (hr : i < inputs.radius.length) (ht : i < inputs.thickness.length)
    (_hneg : inputs.radius.getD i 0 < inputs.thickness.getD i 0) :
    (compute pi inputs).A.getD i 0
        = pi * ((inputs.radius.getD i 0) ^ 2
            - (inputs.radius.getD i 0 - inputs.thickness.getD i 0) ^ 2) ∧
      (compute pi inputs).Iy.getD i 0
        = pi * ((inputs.radius.getD i 0) ^ 4
            - (inputs.radius.getD i 0 - inputs.thickness.getD i 0) ^ 4) / 4 ∧
      (compute pi inputs).Iz.getD i 0
        = pi * ((inputs.radius.getD i 0) ^ 4
            - (inputs.radius.getD i 0 - inputs.thickness.getD i 0) ^ 4) / 4 ∧
      (compute pi inputs).J.getD i 0
        = pi * ((inputs.radius.getD i 0) ^ 4
            - (inputs.radius.getD i 0 - inputs.thickness.getD i 0) ^ 4) / 2 ∧
      (computePartials pi inputs).dA_dradius.getD i 0
        = 2 * pi * (inputs.radius.getD i 0
            - (inputs.radius.getD i 0 - inputs.thickness.getD i 0)) ∧
      (computePartials pi inputs).dA_dthickness.getD i 0
        = 2 * pi * (inputs.radius.getD i 0 - inputs.thickness.getD i 0) ∧
      (computePartials pi inputs).dIy_dthickness.getD i 0
        = pi * (inputs.radius.getD i 0 - inputs.thickness.getD i 0) ^ 3 ∧
      (computePartials pi inputs).dIz_dthickness.getD i 0
        = pi * (inputs.radius.getD i 0 - inputs.thickness.getD i 0) ^ 3 ∧
      (computePartials pi inputs).dJ_dthickness.getD i 0
        = 2 * pi * (inputs.radius.getD i 0 - inputs.thickness.getD i 0) ^ 3 := by
  obtain ⟨hA, hIy, hIz, hJ⟩ := compute_getD pi inputs i hr ht
  obtain ⟨p1, p2, p3, p4, p5, p6, p7, p8⟩ :=
    computePartials_getD pi inputs i hr ht
  refine ⟨?_, ?_, ?_, ?_, ?_, ?_, ?_, ?_, ?_⟩
  · rw [hA]; simp [compute1]
  · rw [hIy]; simp [compute1]
  · rw [hIz]; simp [compute1]
  · rw [hJ]; simp [compute1]
  · rw [p1]; simp [computePartials1]
  · rw [p2]; simp [computePartials1]
  · rw [p4]; simp [computePartials1]
  · rw [p6]; simp [computePartials1]
  · rw [p8]; simp [computePartials1]

/-- Witness for C8 at `radius = [1]`, `thickness = [3]` (so
`r1 = -2 < 0`), `i = 0`: the first conjunct instantiated. -/
theorem compute_total_negative_r1_witness :
    (compute (3 : ℚ) ⟨[1], [3]⟩).A.getD 0 0
      = 3 * (([(1 : ℚ)].getD 0 0) ^ 2
          - ([(1 : ℚ)].getD 0 0 - [(3 : ℚ)].getD 0 0) ^ 2) :=
  (compute_total_negative_r1 (3 : ℚ) ⟨[1], [3]⟩ 0 (by simp) (by simp)
    (by norm_num)).1

/-- C10: replacing `thickness` by `2*radius - thickness` flips the sign
of the inner radius `r1` only, so all four outputs of `compute` are
unchanged (even powers of `r1`), while the four thickness sensitivities
of `compute_partials` flip sign (odd powers of `r1`); for `pi ≠ 0` and
`radius ≠ thickness` this makes the two geometrically different inputs
carry different sensitivities. -/
theorem compute_reflection_invariance {R : Type} [LinearOrderedField R]
    (pi r t : R) (hpi : pi ≠ 0) (hrt : r ≠ t) :
    ((compute1 pi r (2 * r - t)).A = (compute1 pi r t).A ∧
      (compute1 pi r (2 * r - t)).Iy = (compute1 pi r t).Iy ∧
      (compute1 pi r (2 * r - t)).Iz = (compute1 pi r t).Iz ∧
      (compute1 pi r (2 * r - t)).J = (compute1 pi r t).J) ∧
    ((computePartials1 pi r (2 * r - t)).dA_dthickness
        = -(computePartials1 pi r t).dA_dthickness ∧
      (computePartials1 pi r (2 * r - t)).dIy_dthickness
        = -(computePartials1 pi r t).dIy_dthickness ∧
      (computePartials1 pi r (2 * r - t)).dIz_dthickness
        = -(computePartials1 pi r t).dIz_dthickness ∧
      (computePartials1 pi r (2 * r - t)).dJ_dthickness
        = -(computePartials1 pi r t).dJ_dthickness) ∧
    (computePartials1 pi r (2 * r - t)).dA_dthickness
      ≠ (computePartials1 pi r t).dA_dthickness := by
  refine ⟨⟨?_, ?_, ?_, ?_⟩, ⟨?_, ?_, ?_, ?_⟩, ?_⟩
  · simp only [compute1]; ring
  · simp only [compute1]; ring
  · simp only [compute1]; ring
  · simp only [compute1]; ring
  · simp only [computePartials1]; ring
  · simp only [computePartials1]; ring
  · simp only [computePartials1]; ring
  · simp only [computePartials1]; ring
  · intro heq
    simp only [computePartials1] at heq
    have hne : pi * (r - t) ≠ 0 := mul_ne_zero hpi (sub_ne_zero.2 hrt)
    apply hne
    have key : (4 : R) * (pi * (r - t)) = 0 := by linear_combination -heq
    linarith

/-- Witness for C10 at `pi = 3`, `radius = 1`, `thickness = 0`: the
thickness sensitivity of `A` differs between the mirrored inputs. -/
theorem compute_reflection_invariance_witness :
    (computePartials1 (3 : ℚ) 1 (2 * 1 - 0)).dA_dthickness
      ≠ (computePartials1 (3 : ℚ) 1 0).dA_dthickness :=
  (compute_reflection_invariance (3 : ℚ) 1 0 (by norm_num)
    (by norm_num)).2.2

/-- Helper: derivative in the radius direction of
`x ↦ pi * (x^2 - (x - t)^2)` at `r`. -/
theorem hasDerivAt_radius_sq (pi t r : ℝ) :
    HasDerivAt (fun x : ℝ => pi * (x ^ 2 - (x - t) ^ 2))
      (pi * (2 * r - 2 * (r - t))) r := by
  have h1 : HasDerivAt (fun x : ℝ => x ^ 2) (2 * r) r := by
    simpa using hasDerivAt_pow 2 r
  have h2 : HasDerivAt (fun x : ℝ => (x - t) ^ 2) (2 * (r - t) * 1) r := by
    simpa using ((hasDerivAt_id r).sub_const t).pow 2
  have h3 := (h1.sub h2).const_mul pi
  convert h3 using 1
  ring

/-- Helper: derivative in the radius direction of
`x ↦ pi * (x^4 - (x - t)^4)` at `r`. -/
theorem hasDerivAt_radius_quartic (pi t r : ℝ) :
    HasDerivAt (fun x : ℝ => pi * (x ^ 4 - (x - t) ^ 4))
      (pi * (4 * r ^ 3 - 4 * (r - t) ^ 3)) r := by
  have h1 : HasDerivAt (fun x : ℝ => x ^ 4) (4 * r ^ 3) r := by
    simpa using hasDerivAt_pow 4 r
  have h2 : HasDerivAt (fun x : ℝ => (x - t) ^ 4) (4 * (r - t) ^ 3 * 1) r := by
    simpa using ((hasDerivAt_id r).sub_const t).pow 4
  have h3 := (h1.sub h2).const_mul pi
  convert h3 using 1
  ring

/-- Helper: derivative in the thickness direction of
`y ↦ pi * (r^2 - (r - y)^2)` at `t`. -/
theorem hasDerivAt_thickness_sq (pi r t : ℝ) :
    HasDerivAt (fun y : ℝ => pi * (r ^ 2 - (r - y) ^ 2))
      (pi * (2 * (r - t))) t := by
  have h0 : HasDerivAt (fun y : ℝ => r - y) (-1) t := by
    simpa using (hasDerivAt_id t).const_sub r
  have h2 : HasDerivAt (fun y : ℝ => (r - y) ^ 2) (2 * (r - t) * (-1)) t := by
    simpa using h0.pow 2
  have h3 := (h2.const_sub (r ^ 2)).const_mul pi
  convert h3 using 1
  ring

/-- Helper: derivative in the thickness direction of
`y ↦ pi * (r^4 - (r - y)^4)` at `t`. -/
theorem hasDerivAt_thickness_quartic (pi r t : ℝ) :
    HasDerivAt (fun y : ℝ => pi * (r ^ 4 - (r - y) ^ 4))
      (pi * (4 * (r - t) ^ 3)) t := by
  have h0 : HasDerivAt (fun y : ℝ => r - y) (-1) t := by
    simpa using (hasDerivAt_id t).const_sub r
  have h2 : HasDerivAt (fun y : ℝ => (r - y) ^ 4) (4 * (r - t) ^ 3 * (-1)) t := by
    simpa using h0.pow 4
  have h3 := (h2.const_sub (r ^ 4)).const_mul pi
  convert h3 using 1
  ring

/-- C3: for every `pi`, `radius` `r` and `thickness` `t`, the eight
values filled in by `compute_partials` are the exact derivatives of the
outputs of `compute`, as one-variable derivatives in the radius
direction (at fixed `t`) and in the thickness direction (at fixed
`r`). -/
theorem computePartials1_exact (pi r t : ℝ) :
    HasDerivAt (fun x => (compute1 pi x t).A)
        ((computePartials1 pi r t).dA_dradius) r ∧
      HasDerivAt (fun y => (compute1 pi r y).A)
        ((computePartials1 pi r t).dA_dthickness) t ∧
      HasDerivAt (fun x => (compute1 pi x t).Iy)
        ((computePartials1 pi r t).dIy_dradius) r ∧
      HasDerivAt (fun y => (compute1 pi r y).Iy)
        ((computePartials1 pi r t).dIy_dthickness) t ∧
      HasDerivAt (fun x => (compute1 pi x t).Iz)
        ((computePartials1 pi r t).dIz_dradius) r ∧
      HasDerivAt (fun y => (compute1 pi r y).Iz)
        ((computePartials1 pi r t).dIz_dthickness) t ∧
      HasDerivAt (fun x => (compute1 pi x t).J)
        ((computePartials1 pi r t).dJ_dradius) r ∧
      HasDerivAt (fun y => (compute1 pi r y).J)
        ((computePartials1 pi r t).dJ_dthickness) t := by
  refine ⟨?_, ?_, ?_, ?_, ?_, ?_, ?_, ?_⟩
  · simp only [compute1, computePartials1]
    convert hasDerivAt_radius_sq pi t r using 1
    ring
  · simp only [compute1, computePartials1]
    convert hasDerivAt_thickness_sq pi r t using 1
    ring
  · simp only [compute1, computePartials1]
    convert (hasDerivAt_radius_quartic pi t r).div_const 4 using 1
    ring
  · simp only [compute1, computePartials1]
    convert (hasDerivAt_thickness_quartic pi r t).div_const 4 using 1
    ring
  · simp only [compute1, computePartials1]
    convert (hasDerivAt_radius_quartic pi t r).div_const 4 using 1
    ring
  · simp only [compute1, computePartials1]
    convert (hasDerivAt_thickness_quartic pi r t).div_const 4 using 1
    ring
  · simp only [compute1, computePartials1]
    convert (hasDerivAt_radius_quartic pi t r).div_const 2 using 1
    ring
  · simp only [compute1, computePartials1]
    convert (hasDerivAt_thickness_quartic pi r t).div_const 2 using 1
    ring

end TubeProps
